import Mathlib

/-!
Verification of the client-side session protocol handler of the multiplayer
quiz frontend (`src/frontend/app.js`).

The JavaScript source is shallowly embedded: JSON values become an inductive
`Json` type, JavaScript runtime values reachable in the handler become
`JsVal := Option Json` (`none` models `undefined`, `some Json.null` models
`null`), the mutable singleton `state` object together with the pieces of
document state the claims mention becomes the structure `AppState`, and every
event handler of the source (the `ws.onmessage` dispatcher, the per-question
interval callback, the option-button / leave-room / lobby click handlers)
becomes a pure function from `AppState` to `AppState`, paired with the list
of `send`-invocations it performs and a flag recording whether the handler
threw an uncaught exception (`TypeError` on a property access of
`null`/`undefined`, calling a missing method, or a `JSON.parse` failure).
A thrown exception aborts the rest of that handler only; mutations already
performed persist, exactly as in the browser's event loop.

Modelling notes, fixed once here:
* `Json.obj` association lists stand for already-parsed JavaScript objects,
  whose keys are unique; lookup takes the first binding.
* Numeric values are integers; `ToNumber` coercion of floats, and
  `Array`/`String.fromCharCode` stringification corners that no claim
  touches, are approximated and documented at their definitions.
* `setInterval` handles are modelled as identifiers drawn from a counter
  starting at 1 (browser interval ids are positive, hence truthy); the set
  of not-yet-cleared intervals is the list `liveTimers`.
-/

namespace QuizClient

/-- A parsed JSON value, as produced by `JSON.parse`. -/
inductive Json where
  | null : Json
  | bool : Bool → Json
  | num : Int → Json
  | str : String → Json
  | arr : List Json → Json
  | obj : List (String × Json) → Json

/-- A JavaScript runtime value as used by the handler: `none` is
`undefined`, `some Json.null` is `null`. -/
abbrev JsVal := Option Json

/-- JavaScript truthiness of a defined value. -/
def truthyJ : Json → Bool
  | Json.null => false
  | Json.bool b => b
  | Json.num n => !(n == 0)
  | Json.str s => !(s == "")
  | Json.arr _ => true
  | Json.obj _ => true

/-- JavaScript truthiness (`undefined` is falsy). -/
def truthy : JsVal → Bool
  | none => false
  | some j => truthyJ j

/-- First-binding lookup in an object's association list; `none` when the
key is absent (the access yields `undefined`). -/
def lookupKV : List (String × Json) → String → JsVal
  | [], _ => none
  | (k, v) :: rest, key => if k = key then some v else lookupKV rest key

/-- Null-tolerant property access `v?.k` (also the plain access `v.k` at
the places where `v` is known to be neither `null` nor `undefined`):
objects are looked up, other primitives have no such property and yield
`undefined`, `null`/`undefined` receivers short-circuit to `undefined`. -/
def getOpt : JsVal → String → JsVal
  | none, _ => none
  | some Json.null, _ => none
  | some (Json.obj kvs), k => lookupKV kvs k
  | some _, _ => none

/-- JavaScript strict equality `===` restricted to the comparisons the
source performs: structural on primitives, and `false` across distinct
object/array references (all compared objects here come from different
frames, so reference equality never holds). -/
def jsEqV : JsVal → JsVal → Bool
  | none, none => true
  | some Json.null, some Json.null => true
  | some (Json.bool a), some (Json.bool b) => a == b
  | some (Json.num a), some (Json.num b) => a == b
  | some (Json.str a), some (Json.str b) => a == b
  | _, _ => false

/-- `ToNumber` coercion of a defined-or-undefined value, `none` meaning
`NaN`. Integer-valued strings are parsed; fractional, exotic exponent and
non-empty-array inputs are approximated as `NaN` (resp. `0` for `[]`) —
no claim depends on those corners. -/
def toNumV : JsVal → Option Int
  | none => none
  | some Json.null => some 0
  | some (Json.bool b) => some (if b then 1 else 0)
  | some (Json.num n) => some n
  | some (Json.str s) => (fun t => if t = "" then some 0 else t.toInt?) s.trim
  | some (Json.arr []) => some 0
  | some (Json.arr (_ :: _)) => none
  | some (Json.obj _) => none

/-- `String(v)` coercion as used for text interpolation; array
stringification is approximated by the empty string (never inspected by a
claim). -/
def jsToString : JsVal → String
  | none => "undefined"
  | some Json.null => "null"
  | some (Json.bool true) => "true"
  | some (Json.bool false) => "false"
  | some (Json.num n) => toString n
  | some (Json.str s) => s
  | some (Json.arr _) => ""
  | some (Json.obj _) => "[object Object]"

/-- `escapeHtml` (src/frontend/app.js lines 176-184): one global-regex pass
replacing each of the five special characters by its entity. A single-char
character-class regex replace is exactly a per-character map. -/
def escapeChar (c : Char) : String :=
  if c = '&' then "&amp;"
  else if c = '<' then "&lt;"
  else if c = '>' then "&gt;"
  else if c = '"' then "&quot;"
  else if c = '\'' then "&#039;"
  else String.mk [c]

/-- The five characters matched by the `/[&<>"']/g` character class. -/
def isSpecialChar (c : Char) : Bool :=
  c = '&' || c = '<' || c = '>' || c = '"' || c = '\''

/-- `escapeHtml` applied to a string input (`String(str)` is the identity
there). -/
def escapeHtml (s : String) : String :=
  String.mk (List.foldr (fun c acc => (escapeChar c).data ++ acc) [] s.data)

/-- The stored value of `state.timeLeft`: either the JavaScript value last
assigned to it (`q.duration` on question receipt) or `NaN` produced by the
interval callback's `state.timeLeft -= 1` on a non-numeric value. -/
inductive TimeVal where
  | v : JsVal → TimeVal
  | nan : TimeVal

/-- `state.timeLeft - 1` as a number (`none` is `NaN`). -/
def timeSub1 : TimeVal → Option Int
  | TimeVal.v x => (toNumV x).map (fun n => n - 1)
  | TimeVal.nan => none

/-- The modelled WebSocket object: only its `readyState` matters
(0 CONNECTING, 1 OPEN, 2 CLOSING, 3 CLOSED). -/
structure WSConn where
  readyState : Nat

/-- The global `state` singleton of app.js together with the document
state the claims observe.  Fields `playerId`, `room`, `question`,
`answered`, `timeLeft` and the ws/timer bookkeeping mirror the `state`
object literal (lines 14-23); the rest mirror element state written by the
render helpers: `screen` (the `.active` screen), `joinError`
(`#join-error`), `answerFeedback` (`#answer-feedback`), `optionCount` and
`optionsDisabled` (the option buttons built by `buildOptions` and disabled
by `lockOptions`), `playersRendered` / `scoreRendered` (items appended to
the two lists), `btnStartDisabled` / `btnLeaveDisabled` (the two lobby
buttons).  `wsConstructed` counts `new WebSocket(...)` evaluations;
`liveTimers` holds the ids of intervals created and not yet cleared and
`timerRef` the id stored in `state.timer` (possibly already cleared). -/
structure AppState where
  wsConn : Option WSConn
  wsConstructed : Nat
  wsStatus : String
  playerId : JsVal
  room : JsVal
  isHost : Bool
  question : JsVal
  answered : Bool
  timeLeft : TimeVal
  liveTimers : List Nat
  timerRef : Option Nat
  nextTimerId : Nat
  screen : String
  joinError : String
  answerFeedback : String
  optionCount : Nat
  optionsDisabled : Bool
  playersRendered : Nat
  scoreRendered : Nat
  btnStartDisabled : Bool
  btnLeaveDisabled : Bool

/-- The state at script start: the `state` literal of lines 14-23 (`ws`,
`playerId`, `room`, `question`, `timer` null; `timeLeft` 0; flags false);
the home screen is active and the markup's initial texts are empty. -/
def initState : AppState where
  wsConn := none
  wsConstructed := 0
  wsStatus := ""
  playerId := some Json.null
  room := some Json.null
  isHost := false
  question := some Json.null
  answered := false
  timeLeft := TimeVal.v (some (Json.num 0))
  liveTimers := []
  timerRef := none
  nextTimerId := 1
  screen := "screen-home"
  joinError := ""
  answerFeedback := ""
  optionCount := 0
  optionsDisabled := false
  playersRendered := 0
  scoreRendered := 0
  btnStartDisabled := true
  btnLeaveDisabled := true

/-- `connectWS` (lines 38-51): a no-op while `state.ws` is non-null with
`readyState` OPEN or CONNECTING; otherwise sets the status text and stores
a freshly constructed WebSocket (readyState CONNECTING). -/
def wsBusy (st : AppState) : Bool :=
  match st.wsConn with
  | some c => c.readyState == 1 || c.readyState == 0
  | none => false

def connectWS (st : AppState) : AppState :=
  if wsBusy st then st
  else { st with wsStatus := "Conectando...",
                 wsConn := some ⟨0⟩,
                 wsConstructed := st.wsConstructed + 1 }

/-- The state after the script's top level ran: line 276 calls
`connectWS()` on page load. -/
def pageLoad : AppState := connectWS initState

/-- `resetRoom` (lines 164-174): nulls `room`, clears `isHost`, resets the
lobby texts and list and disables both lobby buttons.  It touches neither
`state.timer`, `state.question`, `state.answered` nor the feedback text. -/
def resetRoom (st : AppState) : AppState :=
  { st with room := some Json.null
          , isHost := false
          , playersRendered := 0
          , btnStartDisabled := true
          , btnLeaveDisabled := true }

/-- The body of the `forEach` in `renderRoomState` (lines 147-151), one
list item per player.  Accessing `p.name` on a `null` element throws; any
other element renders (property access on a primitive gives `undefined`,
which `escapeHtml` stringifies). -/
def renderPlayersList : List Json → AppState → AppState × Bool
  | [], st => (st, false)
  | p :: rest, st =>
    match p with
    | Json.null => (st, true)
    | _ => renderPlayersList rest { st with playersRendered := st.playersRendered + 1 }

/-- The trailing part of `renderRoomState` (lines 153-161), reached only
when the players loop did not throw: sets the two lobby buttons' disabled
flags from `state.isHost`, `room.started` and `room.pin`. -/
def renderRoomFinish (st : AppState) (room : JsVal) : AppState × Bool :=
  ({ st with btnStartDisabled := !(st.isHost && !truthy (getOpt room "started"))
           , btnLeaveDisabled := !truthy (getOpt room "pin") }, false)

/-- `renderRoomState` (lines 138-162).  Early-returns on a falsy room;
clears and rebuilds the players list (`(room.players || []).forEach`
throws when `players` is truthy but not an array); then the button flags.
The boolean is the thrown-exception flag. -/
def renderRoomState (st : AppState) (room : JsVal) : AppState × Bool :=
  if truthy room = false then (st, false)
  else
    let st1 := { st with playersRendered := 0 }
    let players := getOpt room "players"
    if truthy players then
      match players with
      | some (Json.arr l) =>
        match renderPlayersList l st1 with
        | (st2, true) => (st2, true)
        | (st2, false) => renderRoomFinish st2 room
      | _ => (st1, true)
    else renderRoomFinish st1 room

/-- `renderScoreboard` (lines 264-272): rebuilds the score list; a `null`
element throws at `p.name`. -/
def renderScoreList : List Json → AppState → AppState × Bool
  | [], st => (st, false)
  | p :: rest, st =>
    match p with
    | Json.null => (st, true)
    | _ => renderScoreList rest { st with scoreRendered := st.scoreRendered + 1 }

def renderScoreboard (st : AppState) (players : JsVal) : AppState × Bool :=
  let st := { st with scoreRendered := 0 }
  match players with
  | some (Json.arr l) => renderScoreList l st
  | _ => (st, true)

/-- `renderQuestion` (lines 219-240).  Throws at `q.difficulty` when `q`
is `null`/`undefined`; clears the feedback text; `buildOptions(q.options)`
(lines 242-257) clears the container and then throws at `options.forEach`
unless `options` is an array, in which case it creates one enabled button
per option; then stores `q.duration` in `state.timeLeft`, clears the
previous interval if `state.timer` is truthy, and starts a fresh
interval whose id it stores in `state.timer`. -/
def renderQuestion (st : AppState) (q : JsVal) : AppState × Bool :=
  match q with
  | none => (st, true)
  | some Json.null => (st, true)
  | some qj =>
    let st := { st with answerFeedback := "" }
    let st := { st with optionCount := 0, optionsDisabled := false }
    match getOpt (some qj) "options" with
    | some (Json.arr l) =>
      let st := { st with optionCount := l.length }
      let st := { st with timeLeft := TimeVal.v (getOpt (some qj) "duration") }
      let st :=
        match st.timerRef with
        | some id => { st with liveTimers := st.liveTimers.erase id }
        | none => st
      let id := st.nextTimerId
      (({ st with liveTimers := st.liveTimers ++ [id]
                , timerRef := some id
                , nextTimerId := id + 1 }), false)
    | _ => (st, true)

/-- The interval callback (lines 229-237), fired once per second while the
interval it belongs to is live.  Decrements `state.timeLeft` (JavaScript
subtraction: `NaN` on non-numeric values, on which the `<= 0` test is
false and the timer keeps ticking); on reaching a value `<= 0` it clears
the interval, disables every option button (`lockOptions`) and writes the
feedback line: the current feedback text back if `state.answered`, the
timeout message otherwise. -/
def tickStep (st : AppState) : AppState :=
  if st.liveTimers.isEmpty then st
  else
    let n := timeSub1 st.timeLeft
    let st := { st with timeLeft := match n with
                                    | some m => TimeVal.v (some (Json.num m))
                                    | none => TimeVal.nan }
    match n with
    | some m =>
      if m ≤ 0 then
        let st :=
          match st.timerRef with
          | some id => { st with liveTimers := st.liveTimers.erase id }
          | none => st
        let st := { st with optionsDisabled := true }
        { st with answerFeedback :=
            if st.answered then st.answerFeedback else "Tempo esgotado." }
      else st
    | none => st

/-- The `Array.prototype.find` call of line 83 with callback
`p => p.id === state.playerId`: scans left to right, stops at the first
element whose `id` strictly equals `state.playerId`; evaluating the
callback on a `null` element throws at `p.id`. -/
def findPlayer (pid : JsVal) : List Json → Except Unit (Option Json)
  | [] => Except.ok none
  | p :: rest =>
    match p with
    | Json.null => Except.error ()
    | q => if jsEqV (getOpt (some q) "id") pid then Except.ok (some q)
           else findPlayer pid rest

/-- `!!state.room.players?.find(p => p.id === state.playerId)?.isHost`
(line 83), evaluated on a non-null `room`: a nullish `players` makes the
whole chain `undefined` (hence `false`); a truthy non-array `players` has
no `find` method and the call throws; otherwise the first matching
player's `isHost` is read through the second optional chain. -/
def jsFindIsHost (room : JsVal) (pid : JsVal) : Except Unit Bool :=
  match getOpt room "players" with
  | none => Except.ok false
  | some Json.null => Except.ok false
  | some (Json.arr l) =>
    match findPlayer pid l with
    | Except.error _ => Except.error ()
    | Except.ok none => Except.ok false
    | Except.ok (some p) => Except.ok (truthy (getOpt (some p) "isHost"))
  | some _ => Except.error ()

/-- `msg.payload?.message || "Erro"` coerced to text (line 95). -/
def errText (m : JsVal) : String :=
  if truthy m then jsToString m else "Erro"

/-- `String.fromCharCode(65 + correctIndex)` (line 109), approximated
through `ToNumber` (string-concatenation corners of JavaScript `+` are not
modelled; no claim reads this text). -/
def letterOf (v : JsVal) : String :=
  match toNumV v with
  | some n => String.mk [Char.ofNat (65 + n).toNat]
  | none => ""

/-- Whether a value is `null` or `undefined` (a property access on it
throws a TypeError). -/
def isNullish : JsVal → Bool
  | none => true
  | some Json.null => true
  | _ => false

/-- The `room_created` branch (lines 61-67): `msg.payload.room` throws
when the payload is nullish; otherwise the room is replaced wholesale,
`isHost` is set, the lobby is rendered and shown. -/
def hbRoomCreated (st : AppState) (payload : JsVal) : AppState × Bool :=
  if isNullish payload then (st, true)
  else
    let r := getOpt payload "room"
    let st := { st with room := r, isHost := true }
    match renderRoomState st r with
    | (st, true) => (st, true)
    | (st, false) => ({ st with screen := "screen-lobby" }, false)

/-- The `room_joined`-with-room branch (lines 69-75): replaces the room,
renders, shows the lobby; `isHost` is left for the next `room_state`. -/
def hbRoomJoinedRoom (st : AppState) (r : JsVal) : AppState × Bool :=
  let st := { st with room := r }
  match renderRoomState st r with
  | (st, true) => (st, true)
  | (st, false) => ({ st with screen := "screen-lobby" }, false)

/-- The `room_state` branch (lines 77-86): a truthy `left` marker runs
`resetRoom` and returns; otherwise `state.room` is replaced by the payload
wholesale, then `state.isHost` is recomputed (line 83 throws when the
stored payload is nullish or its `players` breaks the chain), then the
lobby is re-rendered. -/
def hbRoomState (st : AppState) (payload : JsVal) : AppState × Bool :=
  if truthy (getOpt payload "left") then (resetRoom st, false)
  else
    let st := { st with room := payload }
    if isNullish payload then (st, true)
    else
      match jsFindIsHost payload st.playerId with
      | Except.error _ => (st, true)
      | Except.ok b =>
        let st := { st with isHost := b }
        renderRoomState st payload

/-- The `question` branch (lines 98-103): stores the payload as the active
question, resets `state.answered`, and renders the question (which may
throw part-way). -/
def hbQuestion (st : AppState) (payload : JsVal) : AppState × Bool :=
  let st := { st with question := payload, answered := false }
  renderQuestion st payload

/-- The `answer_result` branch (lines 105-112): `msg.payload.correct`
throws on a nullish payload; otherwise writes the result feedback and
disables the option buttons. -/
def hbAnswerResult (st : AppState) (payload : JsVal) : AppState × Bool :=
  if isNullish payload then (st, true)
  else
    let fb :=
      if truthy (getOpt payload "correct") then
        "Correto! +" ++ jsToString (getOpt payload "gained") ++ " pontos."
      else
        "Errado. Resposta correta: " ++ letterOf (getOpt payload "correctIndex") ++ "."
    ({ st with answerFeedback := fb, optionsDisabled := true }, false)

/-- The `scoreboard` branch (lines 114-117): `msg.payload.players` throws
on a nullish payload; `renderScoreboard(players || [])` then rebuilds the
score list. -/
def hbScoreboard (st : AppState) (payload : JsVal) : AppState × Bool :=
  if isNullish payload then (st, true)
  else
    let players := getOpt payload "players"
    renderScoreboard st (if truthy players then players else some (Json.arr []))

/-- Whether a parsed frame is `null` (on which the very first access
`msg.type` throws). -/
def isNullJ : Json → Bool
  | Json.null => true
  | _ => false

/-- The dispatch chain of `ws.onmessage` (lines 52-124) on a non-null
parsed frame, with the branches in source order.  A frame matching no
branch falls off the end of the handler with no effect (this covers
`round_ended`, which only returns, and every unrecognized type). -/
def handleBody (st : AppState) (msg : Json) : AppState × Bool :=
  let typ := getOpt (some msg) "type"
  let payload := getOpt (some msg) "payload"
  if jsEqV typ (some (Json.str "room_joined")) && truthy (getOpt payload "playerId") then
    ({ st with playerId := getOpt payload "playerId" }, false)
  else if jsEqV typ (some (Json.str "room_created")) then
    hbRoomCreated st payload
  else if jsEqV typ (some (Json.str "room_joined")) && truthy (getOpt payload "room") then
    hbRoomJoinedRoom st (getOpt payload "room")
  else if jsEqV typ (some (Json.str "room_state")) then
    hbRoomState st payload
  else if jsEqV typ (some (Json.str "game_started")) then
    ({ st with screen := "screen-game" }, false)
  else if jsEqV typ (some (Json.str "error")) then
    ({ st with joinError := errText (getOpt payload "message") }, false)
  else if jsEqV typ (some (Json.str "question")) then
    hbQuestion st payload
  else if jsEqV typ (some (Json.str "answer_result")) then
    hbAnswerResult st payload
  else if jsEqV typ (some (Json.str "scoreboard")) then
    hbScoreboard st payload
  else (st, false)

/-- `ws.onmessage` on a frame whose data parsed to `msg`. -/
def handleFrame (st : AppState) (msg : Json) : AppState × Bool :=
  if isNullJ msg then (st, true) else handleBody st msg

/-- Commands handed to `send` (only the ones reachable from the modelled
click handlers). -/
inductive Cmd where
  | answer (idx : Nat) : Cmd
  | leaveRoom : Cmd
deriving DecidableEq

/-- `send(action, payload)` (lines 127-135) first calls `connectWS()`;
whether the frame goes out now or through the 200 ms retry loop, exactly
this one invocation is what forwards the command toward the transport, so
the model records the command at the invocation. -/
def doSend (st : AppState) (c : Cmd) : AppState × List Cmd :=
  (connectWS st, [c])

/-- An option button's click handler (lines 249-254).  A click can only
land on one of the `optionCount` buttons built for the current question
and only while they are not disabled (a disabled button fires no click
event); the handler itself then drops the click when `state.answered` is
already set, else marks answered, sends the answer and locks the
buttons. -/
def clickOption (st : AppState) (idx : Nat) : AppState × List Cmd :=
  if idx < st.optionCount && !st.optionsDisabled then
    if st.answered then (st, [])
    else
      let st := { st with answered := true }
      let (st, out) := doSend st (Cmd.answer idx)
      ({ st with optionsDisabled := true }, out)
  else (st, [])

/-- The `btn-leave-room` click handler (lines 209-212): sends `leave_room`
and immediately runs the local `resetRoom`. -/
def clickLeave (st : AppState) : AppState × List Cmd :=
  let (st, out) := doSend st Cmd.leaveRoom
  (resetRoom st, out)

/-- The `btn-go-lobby` click handler (lines 187-190): shows the lobby and
connects. -/
def clickGoLobby (st : AppState) : AppState :=
  connectWS { st with screen := "screen-lobby" }

/-- The events delivered to the single scheduling queue: an inbound frame
whose data fails `JSON.parse`, an inbound frame with its parsed value, a
click on option button `idx`, one tick of the live interval (a cleared
interval fires no further ticks, so `tick` is a no-op when no interval is
live), and the two modelled button handlers. -/
inductive Ev where
  | badFrame : Ev
  | frame (j : Json) : Ev
  | clickOption (idx : Nat) : Ev
  | tick : Ev
  | clickLeave : Ev
  | clickGoLobby : Ev

/-- Result of one handler run: the state after it, the `send` invocations
it made, and whether it ended in an uncaught exception. -/
structure StepRes where
  st : AppState
  sent : List Cmd
  crashed : Bool

/-- One step of the event loop. -/
def step (st : AppState) (e : Ev) : StepRes :=
  match e with
  | Ev.badFrame => ⟨st, [], true⟩
  | Ev.frame j =>
    match handleFrame st j with
    | (st, c) => ⟨st, [], c⟩
  | Ev.clickOption i =>
    match clickOption st i with
    | (st, out) => ⟨st, out, false⟩
  | Ev.tick => ⟨tickStep st, [], false⟩
  | Ev.clickLeave =>
    match clickLeave st with
    | (st, out) => ⟨st, out, false⟩
  | Ev.clickGoLobby => ⟨clickGoLobby st, [], false⟩

/-- Run a sequence of events. -/
def run (st : AppState) : List Ev → AppState
  | [] => st
  | e :: es => run (step st e).st es

/-- All `send` invocations made over a sequence of events. -/
def sentAll (st : AppState) : List Ev → List Cmd
  | [] => []
  | e :: es => (step st e).sent ++ sentAll (step st e).st es

/-!  ## Derived notions used by the claims  -/

/-- An inbound frame `{type, payload}` as the coordinator sends them. -/
def mkMsg (t : String) (p : Json) : Json :=
  Json.obj [("type", Json.str t), ("payload", p)]

/-- The spec's `answerState == locked`: the player can no longer cause an
answer submission.  The code realizes it as the disjunction of the
`state.answered` flag (set on submission, checked by the gateway guard of
line 250) and the disabled state of the option buttons (set by
`lockOptions` on timer expiry and on `answer_result`; a disabled button
fires no click). -/
def answerLockedB (st : AppState) : Bool :=
  st.answered || st.optionsDisabled

/-- The events ending a question's lifetime: frames of type `question`
(whether or not their payload later makes the handler throw, they reset
`state.answered` first). -/
def isQuestionEv : Ev → Bool
  | Ev.frame j => !isNullJ j && jsEqV (getOpt (some j) "type") (some (Json.str "question"))
  | _ => false

/-- Count of `answer` commands in a command list. -/
def countAnswers (l : List Cmd) : Nat :=
  l.countP (fun c => match c with | Cmd.answer _ => true | _ => false)

/-- Timer-consistency invariant: at most one interval is live, a live
interval is the one whose id `state.timer` stores, and the stored id is
older than the id counter (so a fresh id never collides with it). -/
def timersInvB (st : AppState) : Bool :=
  (match st.liveTimers, st.timerRef with
   | [], _ => true
   | [l], some id => l == id
   | _, _ => false)
  && (match st.timerRef with
      | some id => id < st.nextTimerId
      | none => true)

/-- The entity strings inserted by `escapeHtml`. -/
def entityStrings : List String :=
  ["&amp;", "&lt;", "&gt;", "&quot;", "&#039;"]

/-!  ## C10 — escapeHtml  -/

/-- Each replacement block is either one of the five entities (exactly for
the five special characters) or the single original character. -/
theorem escapeChar_cases (c : Char) :
    (isSpecialChar c = true ∧ escapeChar c ∈ entityStrings) ∨
    (isSpecialChar c = false ∧ escapeChar c = String.mk [c]) := by
  unfold escapeChar isSpecialChar entityStrings
  split_ifs with h1 h2 h3 h4 h5 <;> simp_all

theorem escapeChar_no_bad (c x : Char) (hx : x ∈ (escapeChar c).data) :
    x ≠ '<' ∧ x ≠ '>' ∧ x ≠ '"' ∧ x ≠ '\'' := by
  unfold escapeChar at hx
  split_ifs at hx with h1 h2 h3 h4 h5
  · simp at hx; rcases hx with rfl | rfl | rfl | rfl | rfl <;> decide
  · simp at hx; rcases hx with rfl | rfl | rfl | rfl <;> decide
  · simp at hx; rcases hx with rfl | rfl | rfl | rfl <;> decide
  · simp at hx; rcases hx with rfl | rfl | rfl | rfl | rfl | rfl <;> decide
  · simp at hx; rcases hx with rfl | rfl | rfl | rfl | rfl | rfl <;> decide
  · simp at hx
    subst hx
    exact ⟨h2, h3, h4, h5⟩

theorem escapeChar_amp_count (c : Char) :
    (escapeChar c).data.count '&' = (if isSpecialChar c then 1 else 0) := by
  unfold escapeChar isSpecialChar
  split_ifs with h1 h2 h3 h4 h5 <;> simp_all [List.count_cons]

theorem escapeHtml_data (s : String) :
    (escapeHtml s).data =
      List.foldr (fun c acc => (escapeChar c).data ++ acc) [] s.data := rfl

theorem escapeHtml_fold_no_bad (l : List Char) (x : Char)
    (hx : x ∈ List.foldr (fun c acc => (escapeChar c).data ++ acc) [] l) :
    x ≠ '<' ∧ x ≠ '>' ∧ x ≠ '"' ∧ x ≠ '\'' := by
  induction l with
  | nil => simp at hx
  | cons c rest ih =>
    simp only [List.foldr, List.mem_append] at hx
    rcases hx with hx | hx
    · exact escapeChar_no_bad c x hx
    · exact ih hx

theorem escapeHtml_fold_amp (l : List Char) :
    (List.foldr (fun c acc => (escapeChar c).data ++ acc) [] l).count '&' =
      l.countP isSpecialChar := by
  induction l with
  | nil => rfl
  | cons c rest ih =>
    simp only [List.foldr, List.count_append, List.countP_cons, ih,
      escapeChar_amp_count c]
    cases h : isSpecialChar c <;> simp [Nat.add_comm]

/-- C10: `escapeHtml` maps each input character of `&<>"'` to its entity
and every other character to itself, in one left-to-right pass; hence the
output is a concatenation of entity blocks and safe single characters, it
contains no `<`, `>`, `"` or `'` at all, and every `&` it contains is the
head of exactly one inserted entity (one per special input character — no
entity is re-escaped). -/
theorem escapeHtml_spec (s : String) :
    (escapeHtml s).data =
        List.foldr (fun c acc => (escapeChar c).data ++ acc) [] s.data
    ∧ (∀ c, (isSpecialChar c = true ∧ escapeChar c ∈ entityStrings) ∨
            (isSpecialChar c = false ∧ escapeChar c = String.mk [c]))
    ∧ (∀ x ∈ (escapeHtml s).data, x ≠ '<' ∧ x ≠ '>' ∧ x ≠ '"' ∧ x ≠ '\'')
    ∧ (escapeHtml s).data.count '&' = s.data.countP isSpecialChar := by
  refine ⟨rfl, fun c => escapeChar_cases c, fun x hx => ?_, ?_⟩
  · exact escapeHtml_fold_no_bad s.data x (by simpa [escapeHtml_data] using hx)
  · simpa [escapeHtml_data] using escapeHtml_fold_amp s.data

/-!  ## Reduction and frame lemmas  -/

theorem getOpt_mk_type (t : String) (p : Json) :
    getOpt (some (mkMsg t p)) "type" = some (Json.str t) := by
  simp [mkMsg, getOpt, lookupKV]

theorem getOpt_mk_payload (t : String) (p : Json) :
    getOpt (some (mkMsg t p)) "payload" = some p := by
  simp [mkMsg, getOpt, lookupKV]

theorem jsEqV_str (a b : String) :
    jsEqV (some (Json.str a)) (some (Json.str b)) = (a == b) := rfl

theorem isNullJ_mk (t : String) (p : Json) : isNullJ (mkMsg t p) = false := rfl

/-- `renderPlayersList` only bumps the rendered-items counter. -/
theorem renderPlayersList_shape (l : List Json) (st : AppState) :
    ∃ n c, renderPlayersList l st = ({ st with playersRendered := n }, c) := by
  induction l generalizing st with
  | nil => exact ⟨st.playersRendered, false, rfl⟩
  | cons p rest ih =>
    cases p with
    | null => exact ⟨st.playersRendered, true, rfl⟩
    | bool b => exact ih _
    | num n => exact ih _
    | str s => exact ih _
    | arr a => exact ih _
    | obj o => exact ih _

/-- `renderRoomState` only writes the players list and the two lobby
buttons; every `state` field and the game screen's elements are
untouched. -/
theorem renderRoomState_shape (st : AppState) (r : JsVal) :
    ∃ n b1 b2 c, renderRoomState st r =
      ({ st with playersRendered := n, btnStartDisabled := b1, btnLeaveDisabled := b2 }, c) := by
  unfold renderRoomState
  dsimp only
  split
  · exact ⟨st.playersRendered, st.btnStartDisabled, st.btnLeaveDisabled, false, rfl⟩
  · split
    · split
      · rename_i l heq
        obtain ⟨n, c, hc⟩ := renderPlayersList_shape l { st with playersRendered := 0 }
        rw [hc]
        cases c
        · exact ⟨n, _, _, false, rfl⟩
        · exact ⟨n, st.btnStartDisabled, st.btnLeaveDisabled, true, rfl⟩
      · exact ⟨0, st.btnStartDisabled, st.btnLeaveDisabled, true, rfl⟩
    · exact ⟨0, _, _, false, rfl⟩

/-- `renderRoomFinish` leaves all `state` fields untouched. -/
theorem renderRoomFinish_shape (st : AppState) (r : JsVal) :
    ∃ b1 b2, renderRoomFinish st r =
      ({ st with btnStartDisabled := b1, btnLeaveDisabled := b2 }, false) :=
  ⟨_, _, rfl⟩

/-- `renderScoreList` only bumps the score-items counter. -/
theorem renderScoreList_shape (l : List Json) (st : AppState) :
    ∃ n c, renderScoreList l st = ({ st with scoreRendered := n }, c) := by
  induction l generalizing st with
  | nil => exact ⟨st.scoreRendered, false, rfl⟩
  | cons p rest ih =>
    cases p with
    | null => exact ⟨st.scoreRendered, true, rfl⟩
    | bool b => exact ih _
    | num n => exact ih _
    | str s => exact ih _
    | arr a => exact ih _
    | obj o => exact ih _

theorem renderScoreboard_shape (st : AppState) (players : JsVal) :
    ∃ n c, renderScoreboard st players = ({ st with scoreRendered := n }, c) := by
  unfold renderScoreboard
  split
  · exact renderScoreList_shape _ _
  · exact ⟨0, true, rfl⟩

/-- `renderQuestion` only writes the feedback line, the option buttons and
the timer state. -/
theorem renderQuestion_shape (st : AppState) (q : JsVal) :
    ∃ fb oc od tl lt tr ni c, renderQuestion st q =
      ({ st with answerFeedback := fb, optionCount := oc, optionsDisabled := od,
                 timeLeft := tl, liveTimers := lt, timerRef := tr, nextTimerId := ni }, c) := by
  unfold renderQuestion
  split
  · exact ⟨st.answerFeedback, st.optionCount, st.optionsDisabled, st.timeLeft,
      st.liveTimers, st.timerRef, st.nextTimerId, true, rfl⟩
  · exact ⟨st.answerFeedback, st.optionCount, st.optionsDisabled, st.timeLeft,
      st.liveTimers, st.timerRef, st.nextTimerId, true, rfl⟩
  · dsimp only
    split
    · split
      · exact ⟨_, _, _, _, _, _, _, false, rfl⟩
      · exact ⟨_, _, _, _, _, _, _, false, rfl⟩
    · exact ⟨"", 0, false, st.timeLeft, st.liveTimers, st.timerRef, st.nextTimerId, true, rfl⟩

/-!  ## C6 — connect idempotence  -/

/-- C6: `connectWS` is idempotent — while the stored connection is OPEN or
CONNECTING the call is a no-op, so two calls in immediate succession from a
disconnected state construct exactly one WebSocket, and the second call
changes nothing (in particular the stored connection). -/
theorem connectWS_idempotent (st : AppState) :
    (wsBusy st = true → connectWS st = st)
    ∧ (wsBusy st = false →
        (connectWS (connectWS st)).wsConstructed = st.wsConstructed + 1
        ∧ connectWS (connectWS st) = connectWS st) := by
  have hbusy : ∀ u, wsBusy u = true → connectWS u = u := by
    intro u hu
    simp [connectWS, hu]
  constructor
  · exact hbusy st
  · intro h
    have h1 : connectWS st =
        { st with wsStatus := "Conectando...", wsConn := some ⟨0⟩,
                  wsConstructed := st.wsConstructed + 1 } := by
      simp [connectWS, h]
    have h2 : wsBusy (connectWS st) = true := by rw [h1]; rfl
    refine ⟨?_, hbusy _ h2⟩
    rw [hbusy _ h2, h1]

/-- Witness for C6 at concrete states: from the pristine state two calls
construct exactly one socket; on the already-connecting `pageLoad` state a
call is a no-op. -/
theorem connectWS_idempotent_witness :
    ((connectWS (connectWS initState)).wsConstructed = initState.wsConstructed + 1
      ∧ connectWS (connectWS initState) = connectWS initState)
    ∧ connectWS pageLoad = pageLoad :=
  ⟨(connectWS_idempotent initState).2 (by decide),
   (connectWS_idempotent pageLoad).1 (by decide)⟩

/-!  ## Concrete frames used by counterexamples and witnesses  -/

/-- A well-formed question payload with a 10 second duration. -/
def goodQ : Json :=
  Json.obj [("question", Json.str "2+2?"),
            ("options", Json.arr [Json.str "3", Json.str "4", Json.str "5", Json.str "6"]),
            ("difficulty", Json.str "easy"),
            ("duration", Json.num 10)]

/-- A well-formed question payload with a 1 second duration. -/
def shortQ : Json :=
  Json.obj [("question", Json.str "x"),
            ("options", Json.arr [Json.str "a", Json.str "b"]),
            ("difficulty", Json.str "d"),
            ("duration", Json.num 1)]

/-!  ## C1 — tolerance of malformed frames  -/

/-- The frame types tested by the dispatch chain (`round_ended` only
returns, so it behaves like the fall-through). -/
def dispatchTypes : List String :=
  ["room_joined", "room_created", "room_state", "game_started", "error",
   "question", "answer_result", "scoreboard"]

/-- C1 (amended): a parsed frame that is not `null` and whose `type`
matches none of the dispatched types falls through the whole handler:
no crash, no state change, nothing sent. -/
theorem unknown_frames_silent (st : AppState) (j : Json)
    (hn : isNullJ j = false)
    (h : ∀ t ∈ dispatchTypes,
      jsEqV (getOpt (some j) "type") (some (Json.str t)) = false) :
    step st (Ev.frame j) = ⟨st, [], false⟩ := by
  have h1 := h "room_joined" (by simp [dispatchTypes])
  have h2 := h "room_created" (by simp [dispatchTypes])
  have h3 := h "room_state" (by simp [dispatchTypes])
  have h4 := h "game_started" (by simp [dispatchTypes])
  have h5 := h "error" (by simp [dispatchTypes])
  have h6 := h "question" (by simp [dispatchTypes])
  have h7 := h "answer_result" (by simp [dispatchTypes])
  have h8 := h "scoreboard" (by simp [dispatchTypes])
  simp [step, handleFrame, handleBody, hn, h1, h2, h3, h4, h5, h6, h7, h8]

/-- Witness for C1's amended theorem: a frame of unknown type `bogus` is
dropped with no effect. -/
theorem unknown_frames_silent_witness :
    step initState (Ev.frame (Json.obj [("type", Json.str "bogus")])) =
      ⟨initState, [], false⟩ :=
  unknown_frames_silent initState (Json.obj [("type", Json.str "bogus")])
    (by decide) (by decide)

/-- A recognized-type frame lacking its required payload: `question`
with no `payload` field (line 99 stores `undefined`, line 100 resets
`state.answered`, then `renderQuestion(undefined)` throws at
`q.difficulty`). -/
def payloadlessQuestion : Json := Json.obj [("type", Json.str "question")]

/-- The session state after joining a question and answering it:
`answered` is set. -/
def c1State : AppState :=
  run pageLoad [Ev.frame (mkMsg "question" goodQ), Ev.clickOption 0]

/-- C1 counterexample: a `question` frame whose payload is missing is a
malformed frame (it lacks a required field), yet handling it both changes
Session state (the active question becomes `undefined`, and the
answered/locked flag is reset from `true` to `false`) and throws an
uncaught exception out of `ws.onmessage` — it is not dropped silently with
no state change. -/
theorem c1_counterexample :
    c1State.answered = true
    ∧ c1State.question = some goodQ
    ∧ (step c1State (Ev.frame payloadlessQuestion)).crashed = true
    ∧ (step c1State (Ev.frame payloadlessQuestion)).st.answered = false
    ∧ (step c1State (Ev.frame payloadlessQuestion)).st.question = none := by
  refine ⟨by decide, rfl, by decide, by decide, rfl⟩

/-!  ## C2 — room_state left marker teardown  -/

/-- C2 (amended): a `room_state` frame whose payload carries a truthy
`left` marker runs exactly `resetRoom`: afterwards `room == null` and
`isHost == false`; but the question timer is NOT cancelled (the live
interval list is untouched) and the active question and answered flag
are not cleared either. -/
theorem room_state_left_teardown (st : AppState) (p : Json)
    (h : truthy (getOpt (some p) "left") = true) :
    step st (Ev.frame (mkMsg "room_state" p)) = ⟨resetRoom st, [], false⟩
    ∧ (resetRoom st).room = some Json.null
    ∧ (resetRoom st).isHost = false
    ∧ (resetRoom st).liveTimers = st.liveTimers
    ∧ (resetRoom st).timerRef = st.timerRef
    ∧ (resetRoom st).question = st.question
    ∧ (resetRoom st).answered = st.answered := by
  refine ⟨?_, rfl, rfl, rfl, rfl, rfl, rfl⟩
  simp [step, handleFrame, handleBody, isNullJ_mk, getOpt_mk_type, getOpt_mk_payload,
    jsEqV_str, hbRoomState, h]

/-- The session state right after a question started its 10-second
countdown: interval 1 is live. -/
def c2State : AppState := run pageLoad [Ev.frame (mkMsg "question" goodQ)]

/-- The teardown frame `room_state {left: true}`. -/
def leftFrame : Json := mkMsg "room_state" (Json.obj [("left", Json.bool true)])

/-- C2 counterexample: with a question countdown running (interval 1 is
live), the left-marked `room_state` does null the room and clear `isHost`
— but the interval is still live afterwards, so "no active Question
Timer" fails. -/
theorem c2_counterexample :
    c2State.liveTimers = [1]
    ∧ (step c2State (Ev.frame leftFrame)).st.room = some Json.null
    ∧ (step c2State (Ev.frame leftFrame)).st.isHost = false
    ∧ (step c2State (Ev.frame leftFrame)).st.liveTimers = [1] := by
  refine ⟨by decide, rfl, by decide, by decide⟩

/-- Witness for C2's amended theorem at the running-countdown state. -/
theorem room_state_left_teardown_witness :
    (step c2State (Ev.frame (mkMsg "room_state" (Json.obj [("left", Json.bool true)]))) =
        ⟨resetRoom c2State, [], false⟩
      ∧ (resetRoom c2State).room = some Json.null
      ∧ (resetRoom c2State).isHost = false
      ∧ (resetRoom c2State).liveTimers = c2State.liveTimers
      ∧ (resetRoom c2State).timerRef = c2State.timerRef
      ∧ (resetRoom c2State).question = c2State.question
      ∧ (resetRoom c2State).answered = c2State.answered) :=
  room_state_left_teardown c2State (Json.obj [("left", Json.bool true)]) (by decide)

/-!  ## C9 — room_joined dispatch  -/

/-- The stored room survives the render call of the join branch. -/
theorem hbRoomJoinedRoom_room (st : AppState) (r : JsVal) :
    (hbRoomJoinedRoom st r).1.room = r := by
  unfold hbRoomJoinedRoom
  dsimp only
  obtain ⟨n, b1, b2, c, hc⟩ := renderRoomState_shape { st with room := r } r
  rw [hc]
  cases c <;> rfl

/-- C9 (amended): a `room_joined` frame whose payload carries a truthy
`playerId` only assigns `localPlayerId` — every other Session field,
including any `room` snapshot also present in the payload, is ignored
because that branch returns first; a `room` snapshot in a `room_joined`
frame is stored exactly when the payload's `playerId` is absent or falsy
and the snapshot itself is truthy. -/
theorem room_joined_dispatch :
    (∀ (st : AppState) (p : Json), truthy (getOpt (some p) "playerId") = true →
       step st (Ev.frame (mkMsg "room_joined" p)) =
         ⟨{ st with playerId := getOpt (some p) "playerId" }, [], false⟩)
    ∧ (∀ (st : AppState) (p : Json), truthy (getOpt (some p) "playerId") = false →
       truthy (getOpt (some p) "room") = true →
       (step st (Ev.frame (mkMsg "room_joined" p))).st.room = getOpt (some p) "room") := by
  constructor
  · intro st p h
    simp [step, handleFrame, handleBody, isNullJ_mk, getOpt_mk_type, getOpt_mk_payload,
      jsEqV_str, h]
  · intro st p h hr
    simp [step, handleFrame, handleBody, isNullJ_mk, getOpt_mk_type, getOpt_mk_payload,
      jsEqV_str, h, hr, hbRoomJoinedRoom_room]

/-- Witness for C9's amended theorem: a handshake frame with a truthy
playerId sets only `localPlayerId`. -/
theorem room_joined_dispatch_witness :
    step initState (Ev.frame (mkMsg "room_joined" (Json.obj [("playerId", Json.str "p7")]))) =
      ⟨{ initState with
          playerId := getOpt (some (Json.obj [("playerId", Json.str "p7")])) "playerId" },
        [], false⟩ :=
  room_joined_dispatch.1 initState (Json.obj [("playerId", Json.str "p7")]) (by decide)

/-- A join payload that contains a `playerId` key whose value is the
falsy empty string, together with a room snapshot. -/
def c9Payload : Json :=
  Json.obj [("playerId", Json.str ""), ("room", Json.obj [("pin", Json.str "9")])]

/-- C9 counterexample: this payload does contain a `playerId` (the empty
string), yet the handler does not take the playerId branch — it stores the
room snapshot and leaves `localPlayerId` untouched, because the branch
condition tests truthiness, not presence. -/
theorem c9_counterexample :
    getOpt (some c9Payload) "playerId" = some (Json.str "")
    ∧ (step initState (Ev.frame (mkMsg "room_joined" c9Payload))).st.room =
        some (Json.obj [("pin", Json.str "9")])
    ∧ (step initState (Ev.frame (mkMsg "room_joined" c9Payload))).st.playerId =
        initState.playerId :=
  ⟨rfl, rfl, rfl⟩

/-!  ## C7 — room_state normal recompute  -/

/-- A non-`null` JSON value (callback property accesses on it do not
throw). -/
def jsonNonNull : Json → Bool
  | Json.null => false
  | _ => true

/-- The payload shapes on which line 83's lookup chain and the subsequent
re-render run to completion: `players` absent or `null` (the optional
chain yields `undefined`), or an array of non-`null` elements.  Any other
`players` value makes `players?.find(...)` or `players.forEach` throw. -/
def playersOkB (p : Json) : Bool :=
  match getOpt (some p) "players" with
  | none => true
  | some Json.null => true
  | some (Json.arr l) => l.all jsonNonNull
  | some _ => false

/-- The host bit the code computes, phrased the way a specification would:
the first player of the snapshot's `players` list whose `id` strictly
equals the local player id, if any, has a truthy `isHost` flag. -/
def firstMatchIsHost (p : Json) (pid : JsVal) : Bool :=
  match getOpt (some p) "players" with
  | some (Json.arr l) =>
    match l.find? (fun q => jsEqV (getOpt (some q) "id") pid) with
    | some q => truthy (getOpt (some q) "isHost")
    | none => false
  | _ => false

/-- The claim's reading: SOME player of the snapshot (not necessarily the
first match) has the local id and a truthy host flag. -/
def existsMatchingHost (p : Json) (pid : JsVal) : Bool :=
  match getOpt (some p) "players" with
  | some (Json.arr l) =>
    l.any (fun q => jsEqV (getOpt (some q) "id") pid && truthy (getOpt (some q) "isHost"))
  | _ => false

/-- On a list of non-null players, the source's early-stopping `find` is
`List.find?`. -/
theorem findPlayer_eq (pid : JsVal) (l : List Json) (h : l.all jsonNonNull = true) :
    findPlayer pid l =
      Except.ok (l.find? (fun q => jsEqV (getOpt (some q) "id") pid)) := by
  induction l with
  | nil => rfl
  | cons p rest ih =>
    simp only [List.all_cons, Bool.and_eq_true] at h
    cases p with
    | null => simp [jsonNonNull] at h
    | bool b =>
      simp only [findPlayer, List.find?]
      split <;> simp_all
    | num n =>
      simp only [findPlayer, List.find?]
      split <;> simp_all
    | str s =>
      simp only [findPlayer, List.find?]
      split <;> simp_all
    | arr a =>
      simp only [findPlayer, List.find?]
      split <;> simp_all
    | obj o =>
      simp only [findPlayer, List.find?]
      split <;> simp_all

/-- Under `playersOkB`, line 83's chain evaluates without throwing to the
first-match host bit. -/
theorem jsFindIsHost_ok (p : Json) (pid : JsVal) (h : playersOkB p = true) :
    jsFindIsHost (some p) pid = Except.ok (firstMatchIsHost p pid) := by
  unfold playersOkB at h
  unfold jsFindIsHost firstMatchIsHost
  cases hpl : getOpt (some p) "players" with
  | none => rfl
  | some v =>
    rw [hpl] at h
    cases v with
    | null => rfl
    | arr l =>
      dsimp only at h ⊢
      rw [findPlayer_eq pid l h]
      cases l.find? (fun q => jsEqV (getOpt (some q) "id") pid) <;> rfl
    | bool b => dsimp only at h; exact absurd h (by decide)
    | num n => dsimp only at h; exact absurd h (by decide)
    | str s => dsimp only at h; exact absurd h (by decide)
    | obj o => dsimp only at h; exact absurd h (by decide)

/-- A players loop over non-null elements does not throw. -/
theorem renderPlayersList_ok (l : List Json) (st : AppState)
    (h : l.all jsonNonNull = true) :
    (renderPlayersList l st).2 = false := by
  induction l generalizing st with
  | nil => rfl
  | cons p rest ih =>
    simp only [List.all_cons, Bool.and_eq_true] at h
    cases p with
    | null => simp [jsonNonNull] at h
    | bool b => exact ih _ h.2
    | num n => exact ih _ h.2
    | str s => exact ih _ h.2
    | arr a => exact ih _ h.2
    | obj o => exact ih _ h.2

/-- The room shapes `renderRoomState` renders without throwing: a falsy
room (early return), or a room whose `players` is either falsy/absent
(`|| []`) or an array of non-null elements. -/
def roomRenderOkB (r : JsVal) : Bool :=
  !truthy r ||
  (match getOpt r "players" with
   | none => true
   | some (Json.arr l) => l.all jsonNonNull
   | some v => !truthyJ v)

theorem playersOk_render (p : Json) (h : playersOkB p = true) :
    roomRenderOkB (some p) = true := by
  unfold playersOkB at h
  unfold roomRenderOkB
  cases hpl : getOpt (some p) "players" with
  | none => simp
  | some v =>
    rw [hpl] at h
    cases v with
    | null => simp [truthyJ]
    | arr l => dsimp only at h ⊢; simp [h]
    | bool b => dsimp only at h; exact absurd h (by decide)
    | num n => dsimp only at h; exact absurd h (by decide)
    | str s => dsimp only at h; exact absurd h (by decide)
    | obj o => dsimp only at h; exact absurd h (by decide)

theorem renderRoomState_ok (st : AppState) (r : JsVal)
    (h : roomRenderOkB r = true) :
    (renderRoomState st r).2 = false := by
  unfold roomRenderOkB at h
  unfold renderRoomState
  dsimp only
  split
  · rfl
  · rename_i htr
    rw [Bool.or_eq_true] at h
    rcases h with h | h
    · simp_all [truthy]
    · split
      · rename_i ht
        split
        · rename_i l heq
          rw [heq] at h
          rcases hres : renderPlayersList l { st with playersRendered := 0 } with ⟨st2, c⟩
          have hok := renderPlayersList_ok l { st with playersRendered := 0 } h
          rw [hres] at hok
          simp only at hok
          subst hok
          rfl
        · rename_i hnarr
          cases hpl : getOpt r "players" with
          | none => rw [hpl] at ht; simp [truthy] at ht
          | some v =>
            rw [hpl] at h ht
            cases v <;> simp_all [truthy, truthyJ]
      · rfl

/-!  ## Field-preservation lemmas for the handler branches

The timer and answer-lock fields are written only by the `question` branch
(`renderQuestion`), the interval callback, and the option-button /
`answer_result` lock; every other branch leaves them alone.  -/

theorem timersInvB_eq (a b : AppState) (h1 : a.liveTimers = b.liveTimers)
    (h2 : a.timerRef = b.timerRef) (h3 : a.nextTimerId = b.nextTimerId) :
    timersInvB a = timersInvB b := by
  unfold timersInvB
  rw [h1, h2, h3]

theorem hbRoomCreated_pres (st : AppState) (p : JsVal) :
    (hbRoomCreated st p).1.liveTimers = st.liveTimers
    ∧ (hbRoomCreated st p).1.timerRef = st.timerRef
    ∧ (hbRoomCreated st p).1.nextTimerId = st.nextTimerId
    ∧ (hbRoomCreated st p).1.answered = st.answered
    ∧ (hbRoomCreated st p).1.optionsDisabled = st.optionsDisabled := by
  unfold hbRoomCreated
  split
  · exact ⟨rfl, rfl, rfl, rfl, rfl⟩
  · dsimp only
    obtain ⟨n, b1, b2, c, hc⟩ := renderRoomState_shape
      { st with room := getOpt p "room", isHost := true } (getOpt p "room")
    rw [hc]
    cases c
    · exact ⟨rfl, rfl, rfl, rfl, rfl⟩
    · exact ⟨rfl, rfl, rfl, rfl, rfl⟩

theorem hbRoomJoinedRoom_pres (st : AppState) (r : JsVal) :
    (hbRoomJoinedRoom st r).1.liveTimers = st.liveTimers
    ∧ (hbRoomJoinedRoom st r).1.timerRef = st.timerRef
    ∧ (hbRoomJoinedRoom st r).1.nextTimerId = st.nextTimerId
    ∧ (hbRoomJoinedRoom st r).1.answered = st.answered
    ∧ (hbRoomJoinedRoom st r).1.optionsDisabled = st.optionsDisabled := by
  unfold hbRoomJoinedRoom
  dsimp only
  obtain ⟨n, b1, b2, c, hc⟩ := renderRoomState_shape { st with room := r } r
  rw [hc]
  cases c
  · exact ⟨rfl, rfl, rfl, rfl, rfl⟩
  · exact ⟨rfl, rfl, rfl, rfl, rfl⟩

theorem hbRoomState_pres (st : AppState) (p : JsVal) :
    (hbRoomState st p).1.liveTimers = st.liveTimers
    ∧ (hbRoomState st p).1.timerRef = st.timerRef
    ∧ (hbRoomState st p).1.nextTimerId = st.nextTimerId
    ∧ (hbRoomState st p).1.answered = st.answered
    ∧ (hbRoomState st p).1.optionsDisabled = st.optionsDisabled := by
  unfold hbRoomState
  split
  · exact ⟨rfl, rfl, rfl, rfl, rfl⟩
  · dsimp only
    split
    · exact ⟨rfl, rfl, rfl, rfl, rfl⟩
    · split
      · exact ⟨rfl, rfl, rfl, rfl, rfl⟩
      · rename_i b heq
        obtain ⟨n, b1, b2, c, hc⟩ := renderRoomState_shape
          { st with room := p, isHost := b } p
        rw [hc]
        cases c
        · exact ⟨rfl, rfl, rfl, rfl, rfl⟩
        · exact ⟨rfl, rfl, rfl, rfl, rfl⟩

theorem hbAnswerResult_pres (st : AppState) (p : JsVal) :
    (hbAnswerResult st p).1.liveTimers = st.liveTimers
    ∧ (hbAnswerResult st p).1.timerRef = st.timerRef
    ∧ (hbAnswerResult st p).1.nextTimerId = st.nextTimerId
    ∧ (hbAnswerResult st p).1.answered = st.answered
    ∧ (st.optionsDisabled = true → (hbAnswerResult st p).1.optionsDisabled = true) := by
  unfold hbAnswerResult
  split
  · exact ⟨rfl, rfl, rfl, rfl, fun h => h⟩
  · exact ⟨rfl, rfl, rfl, rfl, fun _ => rfl⟩

theorem hbScoreboard_pres (st : AppState) (p : JsVal) :
    (hbScoreboard st p).1.liveTimers = st.liveTimers
    ∧ (hbScoreboard st p).1.timerRef = st.timerRef
    ∧ (hbScoreboard st p).1.nextTimerId = st.nextTimerId
    ∧ (hbScoreboard st p).1.answered = st.answered
    ∧ (hbScoreboard st p).1.optionsDisabled = st.optionsDisabled := by
  unfold hbScoreboard
  split
  · exact ⟨rfl, rfl, rfl, rfl, rfl⟩
  · dsimp only
    obtain ⟨n, c, hc⟩ := renderScoreboard_shape st
      (if truthy (getOpt p "players") = true then getOpt p "players"
       else some (Json.arr []))
    rw [hc]
    exact ⟨rfl, rfl, rfl, rfl, rfl⟩

/-- With at most one live interval and it the referenced one, the
cancel-then-create sequence of lines 228-237 leaves exactly the fresh
interval live. -/
theorem cancel_create_single (live : List Nat) (ref : Option Nat) (next : Nat)
    (h : (match live, ref with
          | [], _ => true
          | [l], some id => l == id
          | _, _ => false) = true) :
    (match ref with
     | some id => live.erase id
     | none => live) ++ [next] = [next] := by
  cases ref with
  | none =>
    cases live with
    | nil => rfl
    | cons a t => simp at h
  | some id =>
    cases live with
    | nil => rfl
    | cons a t =>
      cases t with
      | nil =>
        simp only [beq_iff_eq] at h
        subst h
        simp [List.erase_cons_head]
      | cons b u => simp at h

/-- The `question` handler preserves the timer invariant: the previous
interval (if any) is cancelled before the new one starts. -/
theorem hbQuestion_timersInv (st : AppState) (p : JsVal)
    (h : timersInvB st = true) :
    timersInvB (hbQuestion st p).1 = true := by
  unfold hbQuestion renderQuestion
  split
  · exact h
  · exact h
  · dsimp only
    split
    · rename_i qj hq l heq
      rcases href : st.timerRef with _ | id
      · rcases hl : st.liveTimers with _ | ⟨a, t⟩
        · simp [timersInvB, href, hl, Nat.lt_succ_self]
        · exfalso
          unfold timersInvB at h
          rw [href, hl] at h
          rcases t with _ | ⟨b, u⟩ <;> simp at h
      · rcases hl : st.liveTimers with _ | ⟨a, t⟩
        · simp [timersInvB, href, hl, Nat.lt_succ_self]
        · rcases t with _ | ⟨b, u⟩
          · unfold timersInvB at h
            rw [href, hl] at h
            simp only [Bool.and_eq_true, beq_iff_eq] at h
            simp [timersInvB, href, hl, h.1, List.erase_cons_head, Nat.lt_succ_self]
          · exfalso
            unfold timersInvB at h
            rw [href, hl] at h
            simp at h
    · exact h

/-- The interval callback preserves the timer invariant (clearing the
referenced interval on expiry). -/
theorem tickStep_timersInv (st : AppState) (h : timersInvB st = true) :
    timersInvB (tickStep st) = true := by
  unfold tickStep
  split
  · exact h
  · dsimp only
    split
    · split
      · rcases href : st.timerRef with _ | id
        · rcases hl : st.liveTimers with _ | ⟨a, t⟩
          · simp [timersInvB, href, hl]
          · exfalso
            unfold timersInvB at h
            rw [href, hl] at h
            rcases t with _ | ⟨b, u⟩ <;> simp at h
        · rcases hl : st.liveTimers with _ | ⟨a, t⟩
          · simp only [timersInvB] at h ⊢
            rw [href, hl] at h
            simpa using h
          · rcases t with _ | ⟨b, u⟩
            · simp only [timersInvB] at h ⊢
              rw [href, hl] at h
              simp only [Bool.and_eq_true, beq_iff_eq] at h
              simp [h.1, h.2, List.erase_cons_head]
            · exfalso
              unfold timersInvB at h
              rw [href, hl] at h
              simp at h
      · exact h
    · exact h

/-- Every dispatch branch preserves the timer invariant. -/
theorem handleBody_timersInv (st : AppState) (msg : Json)
    (h : timersInvB st = true) :
    timersInvB (handleBody st msg).1 = true := by
  unfold handleBody
  dsimp only
  split
  · exact h
  · split
    · rw [timersInvB_eq _ st (hbRoomCreated_pres st _).1 (hbRoomCreated_pres st _).2.1
        (hbRoomCreated_pres st _).2.2.1]
      exact h
    · split
      · rw [timersInvB_eq _ st (hbRoomJoinedRoom_pres st _).1 (hbRoomJoinedRoom_pres st _).2.1
          (hbRoomJoinedRoom_pres st _).2.2.1]
        exact h
      · split
        · rw [timersInvB_eq _ st (hbRoomState_pres st _).1 (hbRoomState_pres st _).2.1
            (hbRoomState_pres st _).2.2.1]
          exact h
        · split
          · exact h
          · split
            · exact h
            · split
              · exact hbQuestion_timersInv st _ h
              · split
                · rw [timersInvB_eq _ st (hbAnswerResult_pres st _).1
                    (hbAnswerResult_pres st _).2.1 (hbAnswerResult_pres st _).2.2.1]
                  exact h
                · split
                  · rw [timersInvB_eq _ st (hbScoreboard_pres st _).1
                      (hbScoreboard_pres st _).2.1 (hbScoreboard_pres st _).2.2.1]
                    exact h
                  · exact h

/-- One event-loop step preserves the timer invariant. -/
theorem step_timersInv (st : AppState) (e : Ev) (h : timersInvB st = true) :
    timersInvB (step st e).st = true := by
  cases e with
  | badFrame => exact h
  | frame j =>
    dsimp only [step]
    rcases hf : handleFrame st j with ⟨st2, c⟩
    have hb : timersInvB (handleFrame st j).1 = true := by
      unfold handleFrame
      split
      · exact h
      · exact handleBody_timersInv st j h
    rw [hf] at hb
    exact hb
  | clickOption i =>
    dsimp only [step]
    unfold clickOption doSend connectWS
    dsimp only
    split
    · split
      · exact h
      · split <;> exact h
    · exact h
  | tick => exact tickStep_timersInv st h
  | clickLeave =>
    dsimp only [step]
    unfold clickLeave doSend connectWS
    dsimp only
    split <;> exact h
  | clickGoLobby =>
    dsimp only [step]
    unfold clickGoLobby connectWS
    split <;> exact h

/-- The timer invariant holds along every run. -/
theorem run_timersInv (es : List Ev) :
    ∀ st : AppState, timersInvB st = true → timersInvB (run st es) = true := by
  induction es with
  | nil => exact fun st h => h
  | cons e rest ih => exact fun st h => ih _ (step_timersInv st e h)

/-- The invariant bounds the number of live intervals by one. -/
theorem timersInvB_len (st : AppState) (h : timersInvB st = true) :
    st.liveTimers.length ≤ 1 := by
  unfold timersInvB at h
  rcases hl : st.liveTimers with _ | ⟨a, t⟩
  · simp
  · rcases t with _ | ⟨b, u⟩
    · simp
    · exfalso
      rw [hl] at h
      rcases st.timerRef <;> simp at h

/-!  ## C5 — at most one live timer  -/

theorem step_frame (st : AppState) (j : Json) :
    step st (Ev.frame j) = ⟨(handleFrame st j).1, [], (handleFrame st j).2⟩ := rfl

/-- The dispatcher routes `question`-typed frames to the question
branch. -/
theorem handleFrame_question (st : AppState) (p : Json) :
    handleFrame st (mkMsg "question" p) = hbQuestion st (some p) := by
  simp [handleFrame, handleBody, isNullJ_mk, getOpt_mk_type, getOpt_mk_payload, jsEqV_str]

/-- A well-formed question payload drives the question branch to
completion: feedback cleared, buttons rebuilt enabled, `answered` reset,
the previously referenced interval cancelled, and a single fresh interval
started with `timeLeft` set to `q.duration`. -/
theorem hbQuestion_success (st : AppState) (q : Json) (l : List Json)
    (hq : isNullJ q = false)
    (heq : getOpt (some q) "options" = some (Json.arr l))
    (hInv : timersInvB st = true) :
    (hbQuestion st (some q)).1.liveTimers = [st.nextTimerId]
    ∧ (hbQuestion st (some q)).1.timerRef = some st.nextTimerId
    ∧ (hbQuestion st (some q)).1.nextTimerId = st.nextTimerId + 1
    ∧ (hbQuestion st (some q)).1.timeLeft = TimeVal.v (getOpt (some q) "duration")
    ∧ (hbQuestion st (some q)).2 = false
    ∧ (hbQuestion st (some q)).1.answered = false
    ∧ (hbQuestion st (some q)).1.optionsDisabled = false
    ∧ (hbQuestion st (some q)).1.optionCount = l.length := by
  cases q with
  | null => simp [isNullJ] at hq
  | bool b => simp [getOpt] at heq
  | num n => simp [getOpt] at heq
  | str s => simp [getOpt] at heq
  | arr a => simp [getOpt] at heq
  | obj o =>
    have h1 : (match st.liveTimers, st.timerRef with
               | [], _ => true
               | [l], some id => l == id
               | _, _ => false) = true := by
      unfold timersInvB at hInv
      rw [Bool.and_eq_true] at hInv
      exact hInv.1
    unfold hbQuestion renderQuestion
    dsimp only
    rw [heq]
    dsimp only
    rcases href : st.timerRef with _ | id
    · rcases hl : st.liveTimers with _ | ⟨a, t⟩
      · exact ⟨rfl, rfl, rfl, rfl, rfl, rfl, rfl, rfl⟩
      · exfalso
        rw [href, hl] at h1
        rcases t with _ | ⟨b, u⟩ <;> simp at h1
    · rcases hl : st.liveTimers with _ | ⟨a, t⟩
      · exact ⟨rfl, rfl, rfl, rfl, rfl, rfl, rfl, rfl⟩
      · rcases t with _ | ⟨b, u⟩
        · rw [href, hl] at h1
          simp only [beq_iff_eq] at h1
          subst h1
          refine ⟨?_, rfl, rfl, rfl, rfl, rfl, rfl, rfl⟩
          simp [List.erase_cons_head]
        · exfalso
          rw [href, hl] at h1
          simp at h1

/-- C5: along every event sequence from page load, at most one question
interval is live at any instant; and handling a well-formed question from
a timer-consistent state cancels the stored previous interval (which can
never be the fresh one) and starts the single fresh countdown with the
new question's duration. -/
theorem at_most_one_timer :
    (∀ es : List Ev, (run pageLoad es).liveTimers.length ≤ 1)
    ∧ (∀ (st : AppState) (q : Json) (l : List Json),
        timersInvB st = true →
        isNullJ q = false →
        getOpt (some q) "options" = some (Json.arr l) →
        (step st (Ev.frame (mkMsg "question" q))).st.liveTimers = [st.nextTimerId]
        ∧ (step st (Ev.frame (mkMsg "question" q))).st.timerRef = some st.nextTimerId
        ∧ (step st (Ev.frame (mkMsg "question" q))).st.timeLeft =
            TimeVal.v (getOpt (some q) "duration")
        ∧ (∀ id, st.timerRef = some id →
            id ∉ (step st (Ev.frame (mkMsg "question" q))).st.liveTimers)) := by
  constructor
  · intro es
    exact timersInvB_len _ (run_timersInv es pageLoad (by decide))
  · intro st q l hInv hq heq
    have hs := hbQuestion_success st q l hq heq hInv
    have hfresh : ∀ id, st.timerRef = some id → id < st.nextTimerId := by
      intro id href
      unfold timersInvB at hInv
      rw [Bool.and_eq_true] at hInv
      have h2 := hInv.2
      rw [href] at h2
      simpa using h2
    rw [step_frame, handleFrame_question]
    refine ⟨hs.1, hs.2.1, hs.2.2.2.1, ?_⟩
    intro id href
    rw [hs.1]
    have := hfresh id href
    simp only [List.mem_singleton]
    omega

/-- Witness for C5's question-step clause at the state where interval 1 is
already running: the old interval is cancelled, interval 2 starts. -/
theorem at_most_one_timer_witness :
    (step c2State (Ev.frame (mkMsg "question" shortQ))).st.liveTimers = [c2State.nextTimerId]
    ∧ (step c2State (Ev.frame (mkMsg "question" shortQ))).st.timerRef =
        some c2State.nextTimerId
    ∧ (step c2State (Ev.frame (mkMsg "question" shortQ))).st.timeLeft =
        TimeVal.v (getOpt (some shortQ) "duration")
    ∧ (∀ id, c2State.timerRef = some id →
        id ∉ (step c2State (Ev.frame (mkMsg "question" shortQ))).st.liveTimers) :=
  at_most_one_timer.2 c2State shortQ [Json.str "a", Json.str "b"]
    (by decide) (by decide) rfl

/-!  ## C3 — the answer gate  -/

theorem lockedB_of_pres {a b : AppState} (h4 : a.answered = b.answered)
    (h5 : a.optionsDisabled = b.optionsDisabled) :
    answerLockedB a = answerLockedB b := by
  unfold answerLockedB
  rw [h4, h5]

theorem countAnswers_append (l1 l2 : List Cmd) :
    countAnswers (l1 ++ l2) = countAnswers l1 + countAnswers l2 := by
  unfold countAnswers
  exact List.countP_append _ _ _

/-- No non-`question` frame can unlock the answer state: `state.answered`
is reset only by the question branch and the option buttons are re-enabled
only by `buildOptions`. -/
theorem handleFrame_locked (st : AppState) (j : Json)
    (hq : isQuestionEv (Ev.frame j) = false)
    (h : answerLockedB st = true) :
    answerLockedB (handleFrame st j).1 = true := by
  unfold handleFrame
  split
  · exact h
  · rename_i hn
    have hn' : isNullJ j = false := by revert hn; cases isNullJ j <;> simp
    have hq2 : jsEqV (getOpt (some j) "type") (some (Json.str "question")) = false := by
      unfold isQuestionEv at hq
      dsimp only at hq
      rw [hn'] at hq
      simpa using hq
    unfold handleBody
    dsimp only
    split
    · exact h
    · split
      · have hp := hbRoomCreated_pres st (getOpt (some j) "payload")
        rw [lockedB_of_pres hp.2.2.2.1 hp.2.2.2.2]
        exact h
      · split
        · have hp := hbRoomJoinedRoom_pres st (getOpt (getOpt (some j) "payload") "room")
          rw [lockedB_of_pres hp.2.2.2.1 hp.2.2.2.2]
          exact h
        · split
          · have hp := hbRoomState_pres st (getOpt (some j) "payload")
            rw [lockedB_of_pres hp.2.2.2.1 hp.2.2.2.2]
            exact h
          · split
            · exact h
            · split
              · exact h
              · split
                · rename_i hcond
                  rw [hq2] at hcond
                  exact absurd hcond (by simp)
                · split
                  · have hp := hbAnswerResult_pres st (getOpt (some j) "payload")
                    unfold answerLockedB at h ⊢
                    rw [hp.2.2.2.1]
                    rw [Bool.or_eq_true] at h
                    rcases h with h | h
                    · simp [h]
                    · simp [hp.2.2.2.2 h]
                  · split
                    · have hp := hbScoreboard_pres st (getOpt (some j) "payload")
                      rw [lockedB_of_pres hp.2.2.2.1 hp.2.2.2.2]
                      exact h
                    · exact h

/-- One non-`question` event neither unlocks the answer state nor lets an
`answer` command through while locked. -/
theorem locked_step (st : AppState) (e : Ev) (hq : isQuestionEv e = false) :
    (answerLockedB st = true → answerLockedB (step st e).st = true)
    ∧ (answerLockedB st = true → countAnswers (step st e).sent = 0) := by
  cases e with
  | badFrame => exact ⟨fun h => h, fun _ => rfl⟩
  | frame j => exact ⟨fun h => handleFrame_locked st j hq h, fun _ => rfl⟩
  | clickOption i =>
    dsimp only [step]
    unfold clickOption doSend connectWS
    dsimp only
    split
    · rename_i hg
      split
      · exact ⟨fun h => h, fun _ => rfl⟩
      · rename_i hna
        rw [Bool.and_eq_true] at hg
        have hd : st.optionsDisabled = false := by
          have := hg.2
          revert this
          cases st.optionsDisabled <;> simp
        have ha : st.answered = false := by
          revert hna
          cases st.answered <;> simp
        constructor
        · intro h
          unfold answerLockedB at h
          rw [hd, ha] at h
          exact absurd h (by simp)
        · intro h
          unfold answerLockedB at h
          rw [hd, ha] at h
          exact absurd h (by simp)
    · exact ⟨fun h => h, fun _ => rfl⟩
  | tick =>
    refine ⟨fun h => ?_, fun _ => rfl⟩
    dsimp only [step]
    unfold tickStep
    split
    · exact h
    · dsimp only
      split
      · split
        · rcases href : st.timerRef with _ | id
          · simp [answerLockedB]
          · simp [answerLockedB]
        · exact h
      · exact h
  | clickLeave =>
    dsimp only [step]
    unfold clickLeave doSend connectWS
    dsimp only
    split
    · exact ⟨fun h => h, fun _ => rfl⟩
    · exact ⟨fun h => h, fun _ => rfl⟩
  | clickGoLobby =>
    dsimp only [step]
    unfold clickGoLobby connectWS
    split
    · exact ⟨fun h => h, fun _ => rfl⟩
    · exact ⟨fun h => h, fun _ => rfl⟩

/-- Locked stays locked and no answer leaves, along any question-free
event sequence. -/
theorem locked_trace (es : List Ev) : ∀ st : AppState,
    (∀ e ∈ es, isQuestionEv e = false) → answerLockedB st = true →
    answerLockedB (run st es) = true ∧ countAnswers (sentAll st es) = 0 := by
  induction es with
  | nil => exact fun st _ h => ⟨h, rfl⟩
  | cons e rest ih =>
    intro st hqs h
    have hs := locked_step st e (hqs e (by simp))
    have h1 := hs.1 h
    have h2 := hs.2 h
    have hr := ih (step st e).st (fun x hx => hqs x (by simp [hx])) h1
    refine ⟨hr.1, ?_⟩
    show countAnswers ((step st e).sent ++ sentAll (step st e).st rest) = 0
    rw [countAnswers_append, h2, hr.2]

/-- C3: within one question's lifetime the lock is set at most once and
gates the transport.  (i) Once `answerState` is locked, it stays locked
and no `answer` command is sent across any question-free event sequence;
(ii) while locked, an option click is a complete no-op at the gateway
(state unchanged, nothing sent); (iii) an unlocked click on an existing
enabled button sends exactly one `answer` and locks; (iv) the timer
reaching zero locks; (v) the next well-formed question event resets the
state to unlocked. -/
theorem answer_locked_once :
    (∀ (st : AppState) (es : List Ev),
        (∀ e ∈ es, isQuestionEv e = false) → answerLockedB st = true →
        answerLockedB (run st es) = true ∧ countAnswers (sentAll st es) = 0)
    ∧ (∀ (st : AppState) (i : Nat), answerLockedB st = true →
        step st (Ev.clickOption i) = ⟨st, [], false⟩)
    ∧ (∀ (st : AppState) (i : Nat),
        i < st.optionCount → st.optionsDisabled = false → st.answered = false →
        countAnswers (step st (Ev.clickOption i)).sent = 1
        ∧ answerLockedB (step st (Ev.clickOption i)).st = true)
    ∧ (∀ st : AppState, st.liveTimers ≠ [] →
        ∀ m : Int, timeSub1 st.timeLeft = some m → m ≤ 0 →
        answerLockedB (tickStep st) = true)
    ∧ (∀ (st : AppState) (q : Json) (l : List Json),
        isNullJ q = false →
        getOpt (some q) "options" = some (Json.arr l) →
        answerLockedB (step st (Ev.frame (mkMsg "question" q))).st = false) := by
  refine ⟨fun st es hqs h => locked_trace es st hqs h, ?_, ?_, ?_, ?_⟩
  · intro st i h
    dsimp only [step]
    unfold clickOption doSend connectWS
    dsimp only
    split
    · rename_i hg
      split
      · rfl
      · rename_i hna
        rw [Bool.and_eq_true] at hg
        have hd : st.optionsDisabled = false := by
          have := hg.2
          revert this
          cases st.optionsDisabled <;> simp
        have ha : st.answered = false := by
          revert hna
          cases st.answered <;> simp
        unfold answerLockedB at h
        rw [hd, ha] at h
        exact absurd h (by simp)
    · rfl
  · intro st i hi hd ha
    dsimp only [step]
    unfold clickOption doSend connectWS
    dsimp only
    rw [if_pos (by simp [hi, hd]), if_neg (by simp [ha])]
    constructor
    · split <;> rfl
    · split <;> simp [answerLockedB]
  · intro st hne m hm hz
    unfold tickStep
    have hne' : st.liveTimers.isEmpty = false := by
      revert hne
      cases st.liveTimers <;> simp
    rw [hne']
    dsimp only
    rw [hm]
    dsimp only
    rw [if_pos hz]
    rcases href : st.timerRef with _ | id
    · simp [answerLockedB]
    · simp [answerLockedB]
  · intro st q l hq heq
    rw [step_frame, handleFrame_question]
    unfold hbQuestion renderQuestion
    cases q with
    | null => simp [isNullJ] at hq
    | bool b => simp [getOpt] at heq
    | num n => simp [getOpt] at heq
    | str s => simp [getOpt] at heq
    | arr a => simp [getOpt] at heq
    | obj o =>
      dsimp only
      rw [heq]
      dsimp only
      rcases href : st.timerRef with _ | id <;> rfl

/-- The session state right after the 1-second question started: its next
tick reaches zero. -/
def c4StateW : AppState := run pageLoad [Ev.frame (mkMsg "question" shortQ)]

/-- Witness for C3 at concrete inputs: after answering the 4-option
question, a tick, a second click and a scoreboard frame neither unlock nor
send anything; the locked click is a no-op; the initial click from the
fresh question sent exactly one answer and locked. -/
theorem answer_locked_once_witness :
    (answerLockedB (run c1State [Ev.clickOption 1, Ev.tick,
        Ev.frame (mkMsg "scoreboard" (Json.obj [("players", Json.arr [])]))]) = true
      ∧ countAnswers (sentAll c1State [Ev.clickOption 1, Ev.tick,
          Ev.frame (mkMsg "scoreboard" (Json.obj [("players", Json.arr [])]))]) = 0)
    ∧ step c1State (Ev.clickOption 2) = ⟨c1State, [], false⟩
    ∧ (countAnswers (step c2State (Ev.clickOption 0)).sent = 1
        ∧ answerLockedB (step c2State (Ev.clickOption 0)).st = true)
    ∧ answerLockedB (tickStep c4StateW) = true
    ∧ answerLockedB (step c1State (Ev.frame (mkMsg "question" shortQ))).st = false :=
  ⟨answer_locked_once.1 c1State _ (by decide) (by decide),
   answer_locked_once.2.1 c1State 2 (by decide),
   answer_locked_once.2.2.1 c2State 0 (by decide) (by decide) (by decide),
   answer_locked_once.2.2.2.1 c4StateW (by decide) 0 (by decide) (by decide),
   answer_locked_once.2.2.2.2 c1State shortQ [Json.str "a", Json.str "b"]
     (by decide) rfl⟩

/-!  ## C4 — timer expiry  -/

/-- C4: when the countdown for the active question reaches zero (the
decrement leaves `timeLeft <= 0`), the interval clears itself (no live
interval remains, so ticking stops), the option buttons are force-locked
(so `answerState` is locked if it was not already), and the feedback line
receives the generic timeout text only when the player had not submitted:
with `state.answered` set, the line is rewritten with its own current
content, so a submission's feedback is never overwritten. -/
theorem timer_expiry (st : AppState)
    (hInv : timersInvB st = true) (hne : st.liveTimers ≠ [])
    (m : Int) (hm : timeSub1 st.timeLeft = some m) (hz : m ≤ 0) :
    step st Ev.tick = ⟨tickStep st, [], false⟩
    ∧ (tickStep st).liveTimers = []
    ∧ (tickStep st).optionsDisabled = true
    ∧ answerLockedB (tickStep st) = true
    ∧ (tickStep st).answerFeedback =
        (if st.answered then st.answerFeedback else "Tempo esgotado.")
    ∧ (st.answered = true → (tickStep st).answerFeedback = st.answerFeedback) := by
  have hne' : st.liveTimers.isEmpty = false := by
    revert hne
    cases st.liveTimers <;> simp
  rcases href : st.timerRef with _ | id
  · exfalso
    unfold timersInvB at hInv
    rw [href] at hInv
    rcases hl : st.liveTimers with _ | ⟨a, t⟩
    · exact hne hl
    · rw [hl] at hInv
      rcases t with _ | ⟨b, u⟩ <;> simp at hInv
  · rcases hl : st.liveTimers with _ | ⟨a, t⟩
    · exact absurd hl hne
    · rcases t with _ | ⟨b, u⟩
      · unfold timersInvB at hInv
        rw [href, hl] at hInv
        rw [Bool.and_eq_true] at hInv
        have ha : a = id := by simpa using hInv.1
        subst ha
        have ht : tickStep st =
            { st with
                timeLeft := TimeVal.v (some (Json.num m)),
                liveTimers := [],
                optionsDisabled := true,
                answerFeedback :=
                  if st.answered then st.answerFeedback else "Tempo esgotado." } := by
          unfold tickStep
          rw [hne']
          dsimp only
          rw [hm]
          dsimp only
          rw [if_pos hz, href, hl]
          simp [List.erase_cons_head]
        refine ⟨rfl, ?_, ?_, ?_, ?_, ?_⟩
        · rw [ht]
        · rw [ht]
        · rw [ht]
          simp [answerLockedB]
        · rw [ht]
        · intro hasw
          rw [ht]
          simp [hasw]
      · exfalso
        unfold timersInvB at hInv
        rw [href, hl] at hInv
        simp at hInv

/-- Witness for C4: ticking the running 1-second question to zero stops
the interval, locks, and shows the timeout text (the player had not
answered). -/
theorem timer_expiry_witness :
    step c4StateW Ev.tick = ⟨tickStep c4StateW, [], false⟩
    ∧ (tickStep c4StateW).liveTimers = []
    ∧ (tickStep c4StateW).optionsDisabled = true
    ∧ answerLockedB (tickStep c4StateW) = true
    ∧ (tickStep c4StateW).answerFeedback =
        (if c4StateW.answered then c4StateW.answerFeedback else "Tempo esgotado.")
    ∧ (c4StateW.answered = true →
        (tickStep c4StateW).answerFeedback = c4StateW.answerFeedback) :=
  timer_expiry c4StateW (by decide) (by decide) 0 (by decide) (by decide)

/-- The normal (no left marker) `room_state` branch on a non-null payload
whose `players` shape keeps line 83 and the re-render from throwing:
`room` is replaced wholesale and `isHost` is recomputed as the first
matching player's truthy host flag. -/
theorem hbRoomState_normal (st : AppState) (p : Json)
    (hp : isNullJ p = false)
    (hl : truthy (getOpt (some p) "left") = false)
    (hpl : playersOkB p = true) :
    (hbRoomState st (some p)).2 = false
    ∧ (hbRoomState st (some p)).1.room = some p
    ∧ (hbRoomState st (some p)).1.isHost = firstMatchIsHost p st.playerId := by
  unfold hbRoomState
  rw [if_neg (by simp [hl])]
  dsimp only
  have hnn : isNullish (some p) = false := by
    cases p <;> simp_all [isNullish, isNullJ]
  rw [if_neg (by simp [hnn])]
  rw [jsFindIsHost_ok p st.playerId hpl]
  dsimp only
  obtain ⟨n, b1, b2, c, hc⟩ := renderRoomState_shape
    { st with room := some p, isHost := firstMatchIsHost p st.playerId } (some p)
  have h2 := renderRoomState_ok
    { st with room := some p, isHost := firstMatchIsHost p st.playerId } (some p)
    (playersOk_render p hpl)
  rw [hc] at h2 ⊢
  simp only at h2
  subst h2
  exact ⟨rfl, rfl, rfl⟩

/-- C7 (amended): after a normal `room_state` event with a non-null
payload on which the handler completes (its `players` is absent, `null`,
or an array of non-null entries — this covers snapshots with zero or
several flagged hosts and a missing players list), `room` equals the
payload wholesale and `isHost` is true iff the FIRST player whose `id`
strictly equals `localPlayerId` carries a truthy `isHost` flag. -/
theorem room_state_normal (st : AppState) (p : Json)
    (hp : isNullJ p = false)
    (hl : truthy (getOpt (some p) "left") = false)
    (hpl : playersOkB p = true) :
    (step st (Ev.frame (mkMsg "room_state" p))).crashed = false
    ∧ (step st (Ev.frame (mkMsg "room_state" p))).st.room = some p
    ∧ (step st (Ev.frame (mkMsg "room_state" p))).st.isHost =
        firstMatchIsHost p st.playerId := by
  have hred : handleFrame st (mkMsg "room_state" p) = hbRoomState st (some p) := by
    simp [handleFrame, handleBody, isNullJ_mk, getOpt_mk_type, getOpt_mk_payload, jsEqV_str]
  rw [step_frame, hred]
  exact hbRoomState_normal st p hp hl hpl

/-- Witness for C7's amended theorem at a snapshot with no players list:
the recomputation totals to `false` without crashing. -/
theorem room_state_normal_witness :
    (step initState (Ev.frame (mkMsg "room_state" (Json.obj [("pin", Json.str "77")])))).crashed
        = false
    ∧ (step initState (Ev.frame (mkMsg "room_state"
        (Json.obj [("pin", Json.str "77")])))).st.room = some (Json.obj [("pin", Json.str "77")])
    ∧ (step initState (Ev.frame (mkMsg "room_state"
        (Json.obj [("pin", Json.str "77")])))).st.isHost =
        firstMatchIsHost (Json.obj [("pin", Json.str "77")]) initState.playerId :=
  room_state_normal initState (Json.obj [("pin", Json.str "77")])
    (by decide) (by decide) (by decide)

/-- Two snapshot entries sharing the id `p1`: the first is not host, the
second is. -/
def dupSnapshot : Json :=
  Json.obj [("players", Json.arr
    [Json.obj [("id", Json.str "p1"), ("isHost", Json.bool false)],
     Json.obj [("id", Json.str "p1"), ("isHost", Json.bool true)]])]

/-- The session state after the handshake assigned playerId `p1`. -/
def c7State : AppState :=
  run pageLoad [Ev.frame (mkMsg "room_joined" (Json.obj [("playerId", Json.str "p1")]))]

/-- C7 counterexample: the snapshot CONTAINS a player whose id equals the
local id and whose isHost flag is set (the second entry), yet the handler
computes `isHost = false`, because `Array.find` stops at the first entry
with that id.  The claim's "contains" reading fails on the code. -/
theorem c7_counterexample :
    c7State.playerId = some (Json.str "p1")
    ∧ existsMatchingHost dupSnapshot c7State.playerId = true
    ∧ (step c7State (Ev.frame (mkMsg "room_state" dupSnapshot))).crashed = false
    ∧ (step c7State (Ev.frame (mkMsg "room_state" dupSnapshot))).st.room = some dupSnapshot
    ∧ (step c7State (Ev.frame (mkMsg "room_state" dupSnapshot))).st.isHost = false :=
  ⟨rfl, by decide, by decide, rfl, by decide⟩

/-!  ## C8 — room_created  -/

/-- The Ana scenario snapshot of the spec. -/
def anaRoom : Json :=
  Json.obj [("pin", Json.str "4821"),
            ("players", Json.arr [Json.obj
              [("id", Json.str "p1"), ("name", Json.str "Ana"), ("isHost", Json.bool true)]]),
            ("count", Json.num 1),
            ("started", Json.bool false)]

def anaPayload : Json := Json.obj [("room", anaRoom)]

/-- The `room_created` branch on a non-null payload whose room snapshot
renders cleanly: room replaced, host set, lobby entered. -/
theorem hbRoomCreated_normal (st : AppState) (pl : Json)
    (hp : isNullJ pl = false)
    (h : roomRenderOkB (getOpt (some pl) "room") = true) :
    (hbRoomCreated st (some pl)).2 = false
    ∧ (hbRoomCreated st (some pl)).1.room = getOpt (some pl) "room"
    ∧ (hbRoomCreated st (some pl)).1.isHost = true
    ∧ (hbRoomCreated st (some pl)).1.screen = "screen-lobby" := by
  unfold hbRoomCreated
  have hnn : isNullish (some pl) = false := by
    cases pl <;> simp_all [isNullish, isNullJ]
  rw [if_neg (by simp [hnn])]
  dsimp only
  obtain ⟨n, b1, b2, c, hc⟩ := renderRoomState_shape
    { st with room := getOpt (some pl) "room", isHost := true } (getOpt (some pl) "room")
  have h2 := renderRoomState_ok
    { st with room := getOpt (some pl) "room", isHost := true } (getOpt (some pl) "room") h
  rw [hc] at h2 ⊢
  simp only at h2
  subst h2
  exact ⟨rfl, rfl, rfl, rfl⟩

/-- C8: a `room_created` event replaces `room` wholesale with the
payload's snapshot, sets `isHost = true` and enters the lobby; on the
spec's concrete Ana snapshot the resulting session is host with the
start-game control enabled (`isHost && !room.started`). -/
theorem room_created_lobby :
    (∀ (st : AppState) (pl : Json),
        isNullJ pl = false →
        roomRenderOkB (getOpt (some pl) "room") = true →
        (step st (Ev.frame (mkMsg "room_created" pl))).crashed = false
        ∧ (step st (Ev.frame (mkMsg "room_created" pl))).st.room = getOpt (some pl) "room"
        ∧ (step st (Ev.frame (mkMsg "room_created" pl))).st.isHost = true
        ∧ (step st (Ev.frame (mkMsg "room_created" pl))).st.screen = "screen-lobby")
    ∧ ((run pageLoad [Ev.frame (mkMsg "room_created" anaPayload)]).isHost = true
        ∧ (run pageLoad [Ev.frame (mkMsg "room_created" anaPayload)]).room = some anaRoom
        ∧ (run pageLoad [Ev.frame (mkMsg "room_created" anaPayload)]).screen = "screen-lobby"
        ∧ (run pageLoad [Ev.frame (mkMsg "room_created" anaPayload)]).btnStartDisabled = false) := by
  constructor
  · intro st pl hp h
    have hred : handleFrame st (mkMsg "room_created" pl) = hbRoomCreated st (some pl) := by
      simp [handleFrame, handleBody, isNullJ_mk, getOpt_mk_type, getOpt_mk_payload, jsEqV_str]
    rw [step_frame, hred]
    exact hbRoomCreated_normal st pl hp h
  · exact ⟨by decide, rfl, by decide, by decide⟩

/-- Witness for C8's universal clause at the Ana payload. -/
theorem room_created_lobby_witness :
    (step initState (Ev.frame (mkMsg "room_created" anaPayload))).crashed = false
    ∧ (step initState (Ev.frame (mkMsg "room_created" anaPayload))).st.room =
        getOpt (some anaPayload) "room"
    ∧ (step initState (Ev.frame (mkMsg "room_created" anaPayload))).st.isHost = true
    ∧ (step initState (Ev.frame (mkMsg "room_created" anaPayload))).st.screen = "screen-lobby" :=
  room_created_lobby.1 initState anaPayload (by decide) (by decide)

end QuizClient
